import Mathlib

/-!
Verification of the openapi-gen client generator's resolution engine.

The definitions below are a shallow embedding of the generator's Rust source:
`src/utils/keywords.rs`, `src/codegen/types.rs`, `src/codegen/params.rs`,
`src/generator/methods.rs`, `src/generator/param_structs.rs` and
`src/generator/structs.rs`.  Token streams produced by `quote!` are modelled
as first-order data (`RustType`, `QueryStep`, ...) whose rendering mirrors
`TokenStream::to_string`, and the behaviour of emitted URL-building code is
given by a small-step interpreter over those data.

The external `heck` crate (case conversion) is modelled as an abstract pair
of functions (`Casing`); no theorem below depends on the concrete casing
algorithm, so every result holds for the real `heck` functions.
-/

namespace OpenapiGen

/-- The two case-conversion functions the generator imports from the external
`heck` crate (`to_snake_case`, `to_pascal_case`).  They are kept abstract:
all theorems hold for every choice of casing functions. -/
structure Casing where
  snake : String → String
  pascal : String → String

/-- A concrete instantiation of the casing functions, used only to evaluate
the development on closed inputs. -/
def idCasing : Casing := { snake := fun s => s, pascal := fun s => s }

/-- `is_rust_keyword` from `src/utils/keywords.rs` (the `matches!` table). -/
def is_rust_keyword (name : String) : Bool :=
  match name with
  | "as" | "break" | "const" | "continue" | "crate" | "else" | "enum"
  | "extern" | "false" | "fn" | "for" | "if" | "impl" | "in" | "let"
  | "loop" | "match" | "mod" | "move" | "mut" | "pub" | "ref" | "return"
  | "self" | "Self" | "static" | "struct" | "super" | "trait" | "true"
  | "type" | "unsafe" | "use" | "where" | "while" | "async" | "await"
  | "dyn" | "abstract" | "become" | "box" | "do" | "final" | "macro"
  | "override" | "priv" | "typeof" | "unsized" | "virtual" | "yield"
  | "try" => true
  | _ => false

/-- `create_rust_safe_ident` from `src/utils/keywords.rs`.  Idents are
modelled as the string `format_ident!` is given. -/
def create_rust_safe_ident (name : String) : String :=
  if is_rust_keyword name = true then
    match name with
    | "self" => "self_"
    | "Self" => "Self_"
    | _ => "r#" ++ name
  else name

/-- Rust types as produced by the generator's `quote!` fragments in
`src/codegen/types.rs` and friends. -/
inductive RustType where
  | stringTy
  | strRef
  | i32
  | i64
  | f32
  | f64
  | boolTy
  | vec (t : RustType)
  | optionTy (t : RustType)
  | jsonValue
  | hashMapStringJson
  | ident (name : String)
  | boxTy (t : RustType)
  deriving DecidableEq, Repr

/-- `TokenStream::to_string` on the type fragments (proc-macro2 separates
tokens with spaces, e.g. `quote!(&str)` prints as `"& str"`). -/
def RustType.render : RustType → String
  | .stringTy => "String"
  | .strRef => "& str"
  | .i32 => "i32"
  | .i64 => "i64"
  | .f32 => "f32"
  | .f64 => "f64"
  | .boolTy => "bool"
  | .vec t => "Vec < " ++ t.render ++ " >"
  | .optionTy t => "Option < " ++ t.render ++ " >"
  | .jsonValue => "serde_json :: Value"
  | .hashMapStringJson => "HashMap < String , serde_json :: Value >"
  | .ident name => name
  | .boxTy t => "Box < " ++ t.render ++ " >"

/-- Whether a type is `Option<_>`-wrapped at the top. -/
def RustType.isOpt : RustType → Bool
  | .optionTy _ => true
  | _ => false

/-!
Rust's `str` primitives, modelled over the character list of the string so
that every definition evaluates inside the Lean kernel.
-/

/-- Rust's `str::starts_with` for a string pattern. -/
def strStarts (s p : String) : Bool := p.data.isPrefixOf s.data

/-- Rust's `str::starts_with` for a character pattern. -/
def strStartsChar (s : String) (ch : Char) : Bool :=
  match s.data with
  | [] => false
  | c :: _ => c == ch

/-- Rust's `str::strip_prefix` (`Option`-returning). -/
def dropPre (s p : String) : Option String :=
  if strStarts s p then some (s.drop p.data.length) else none

/-- Infix test on character lists. -/
def containsSubList (pat : List Char) : List Char → Bool
  | [] => pat.isEmpty
  | a :: l => pat.isPrefixOf (a :: l) || containsSubList pat l

/-- Rust's `str::contains` for a literal pattern. -/
def strContains (s pat : String) : Bool := containsSubList pat.data s.data

/-- Rust's `str::trim` (whitespace from both ends). -/
def strTrim (s : String) : String :=
  String.mk (((s.data.dropWhile Char.isWhitespace).reverse.dropWhile Char.isWhitespace).reverse)

/-- Rust's `str::is_empty`. -/
def strIsEmpty (s : String) : Bool := s.data.isEmpty

/-- Splitting a character list at a separator character (Rust `str::split`). -/
def charListSplit (sep : Char) : List Char → List (List Char)
  | [] => [[]]
  | ch :: rest =>
    let r := charListSplit sep rest
    if ch == sep then [] :: r
    else
      match r with
      | [] => [[ch]]
      | w :: ws => (ch :: w) :: ws

/-- Rust's `str::split` on a character, collected to strings. -/
def splitChar (s : String) (sep : Char) : List String :=
  (charListSplit sep s.data).map (fun cs => String.mk cs)

/-- `openapiv3::IntegerFormat` (only the variant the generator inspects). -/
inductive IntFormat where
  | int32
  | int64
  deriving DecidableEq, Repr

/-- `openapiv3::NumberFormat` (only the variant the generator inspects). -/
inductive NumFormat where
  | float
  | double
  deriving DecidableEq, Repr

/-- `openapiv3::VariantOrUnknownOrEmpty`. -/
inductive VariantOrUnknownOrEmpty (α : Type) where
  | item (a : α)
  | unknown (s : String)
  | empty
  deriving DecidableEq, Repr

mutual
/-- `openapiv3::Schema`: the schema kind (the `schema_data` the generator
reads — the description — is irrelevant to every claim and omitted). -/
inductive Schema where
  | mk (kind : SchemaKind)

/-- `openapiv3::SchemaKind` restricted to the `Type(..)` shapes the
generator distinguishes; every other `SchemaKind` falls into `other`,
matching the source's catch-all `_` arm. -/
inductive SchemaKind where
  | str (enumeration : List (Option String))
  | int (format : VariantOrUnknownOrEmpty IntFormat)
  | num (format : VariantOrUnknownOrEmpty NumFormat)
  | boolean
  | array (items : Option RefOrSchema)
  | obj (properties : List (String × RefOrSchema)) (required : List String)
  | other

/-- `openapiv3::ReferenceOr<Schema>`. -/
inductive RefOrSchema where
  | ref (reference : String)
  | item (schema : Schema)
end

/-- `schema_to_rust_type` from `src/codegen/types.rs`. -/
def schema_to_rust_type (c : Casing) : Schema → Except String RustType
  | .mk (.str _) => .ok .stringTy
  | .mk (.int format) =>
    match format with
    | .item .int64 => .ok .i64
    | _ => .ok .i32
  | .mk (.num format) =>
    match format with
    | .item .double => .ok .f64
    | _ => .ok .f32
  | .mk .boolean => .ok .boolTy
  | .mk (.array (some (.ref reference))) =>
    match dropPre reference "#/components/schemas/" with
    | some type_name => .ok (.vec (.ident (c.pascal type_name)))
    | none => .ok (.vec .jsonValue)
  | .mk (.array (some (.item schema))) =>
    match schema_to_rust_type c schema with
    | .ok item_type => .ok (.vec item_type)
    | .error e => .error e
  | .mk (.array none) => .ok (.vec .jsonValue)
  | .mk (.obj _ _) => .ok .hashMapStringJson
  | .mk .other => .ok .jsonValue

/-- `reference_or_schema_to_rust_type` from `src/codegen/types.rs`. -/
def reference_or_schema_to_rust_type (c : Casing) : RefOrSchema → Except String RustType
  | .ref reference =>
    match dropPre reference "#/components/schemas/" with
    | some type_name => .ok (.ident (c.pascal type_name))
    | none => .ok .jsonValue
  | .item schema => schema_to_rust_type c schema

/-- `ParameterLocation` from `src/codegen/params.rs`. -/
inductive ParameterLocation where
  | path
  | query
  | header
  | cookie
  deriving DecidableEq, Repr

/-- `ParameterInfo` from `src/codegen/params.rs`; the `Ident` field is
modelled as the string handed to `format_ident!`. -/
structure ParameterInfo where
  name : String
  ident : String
  param_type : RustType
  location : ParameterLocation
  is_array : Bool
  required : Bool
  deriving DecidableEq, Repr

/-- `openapiv3::ParameterSchemaOrContent`; the generator only distinguishes
the `Schema` variant from everything else. -/
inductive ParameterSchemaOrContent where
  | schema (schema_ref : RefOrSchema)
  | content

/-- The `is_array` computation shared by `process_parameter` and
`process_parameter_for_struct` (a `matches!` on the schema kind). -/
def schema_is_array : ParameterSchemaOrContent → Bool
  | .schema (.item (.mk (.array _))) => true
  | _ => false

/-- `process_parameter` from `src/codegen/params.rs` (inline-parameter
mode). -/
def process_parameter (c : Casing) (param_name : String)
    (param_schema : ParameterSchemaOrContent) (location : ParameterLocation)
    (required : Bool) : Except String ParameterInfo :=
  let snake_case_param := c.snake param_name
  let param_ident := create_rust_safe_ident snake_case_param
  let base_type_res : Except String RustType :=
    match param_schema with
    | .schema schema_ref =>
      match reference_or_schema_to_rust_type c schema_ref with
      | .ok rust_type =>
        if strTrim rust_type.render == "String" then .ok .strRef else .ok rust_type
      | .error e => .error e
    | _ => .ok .strRef
  match base_type_res with
  | .error e => .error e
  | .ok base_type =>
    let param_type :=
      if required = true ∨ location = ParameterLocation.path then base_type
      else RustType.optionTy base_type
    .ok { name := param_name, ident := param_ident, param_type := param_type,
          location := location, is_array := schema_is_array param_schema,
          required := required }

/-- `process_parameter_for_struct` from `src/generator/param_structs.rs`
(parameter-struct mode: `String` instead of `&str`). -/
def process_parameter_for_struct (c : Casing) (param_name : String)
    (param_schema : ParameterSchemaOrContent) (location : ParameterLocation)
    (required : Bool) : Except String ParameterInfo :=
  let snake_case_param := c.snake param_name
  let param_ident := create_rust_safe_ident snake_case_param
  let base_type_res : Except String RustType :=
    match param_schema with
    | .schema schema_ref =>
      match reference_or_schema_to_rust_type c schema_ref with
      | .ok rust_type =>
        if strTrim rust_type.render == "String" || strContains rust_type.render "& str" then
          .ok .stringTy
        else .ok rust_type
      | .error e => .error e
    | _ => .ok .stringTy
  match base_type_res with
  | .error e => .error e
  | .ok base_type =>
    let param_type :=
      if required = true ∨ location = ParameterLocation.path then base_type
      else RustType.optionTy base_type
    .ok { name := param_name, ident := param_ident, param_type := param_type,
          location := location, is_array := schema_is_array param_schema,
          required := required }

/-- The type resolver never produces an `Option<_>`-wrapped type: helper for
the path-parameter invariant. -/
theorem schema_to_rust_type_ok_not_opt (c : Casing) (s : Schema) (t : RustType)
    (h : schema_to_rust_type c s = .ok t) : t.isOpt = false := by
  cases s with
  | mk k =>
    cases k with
    | str e => simp only [schema_to_rust_type] at h; cases h; rfl
    | int f =>
      cases f with
      | item a => cases a <;> (simp only [schema_to_rust_type] at h; cases h; rfl)
      | unknown s => simp only [schema_to_rust_type] at h; cases h; rfl
      | empty => simp only [schema_to_rust_type] at h; cases h; rfl
    | num f =>
      cases f with
      | item a => cases a <;> (simp only [schema_to_rust_type] at h; cases h; rfl)
      | unknown s => simp only [schema_to_rust_type] at h; cases h; rfl
      | empty => simp only [schema_to_rust_type] at h; cases h; rfl
    | boolean => simp only [schema_to_rust_type] at h; cases h; rfl
    | array items =>
      match items with
      | none => simp only [schema_to_rust_type] at h; cases h; rfl
      | some (.ref r) =>
        simp only [schema_to_rust_type] at h
        cases hd : dropPre r "#/components/schemas/" with
        | some tn => rw [hd] at h; simp only [] at h; cases h; rfl
        | none => rw [hd] at h; simp only [] at h; cases h; rfl
      | some (.item s') =>
        simp only [schema_to_rust_type] at h
        cases hrec : schema_to_rust_type c s' with
        | ok it => rw [hrec] at h; simp only [] at h; cases h; rfl
        | error e => rw [hrec] at h; simp only [] at h; cases h
    | obj props req => simp only [schema_to_rust_type] at h; cases h; rfl
    | other => simp only [schema_to_rust_type] at h; cases h; rfl

/-- Same fact for `reference_or_schema_to_rust_type`. -/
theorem reference_or_schema_to_rust_type_ok_not_opt (c : Casing) (r : RefOrSchema)
    (t : RustType) (h : reference_or_schema_to_rust_type c r = .ok t) :
    t.isOpt = false := by
  cases r with
  | ref reference =>
    simp only [reference_or_schema_to_rust_type] at h
    cases hd : dropPre reference "#/components/schemas/" with
    | some tn => rw [hd] at h; simp only [] at h; cases h; rfl
    | none => rw [hd] at h; simp only [] at h; cases h; rfl
  | item s =>
    simp only [reference_or_schema_to_rust_type] at h
    exact schema_to_rust_type_ok_not_opt c s t h

/-- Claim C1: a parameter whose declared location is `Path` is always
represented as required — its generated type is never wrapped in
`Option<_>`, regardless of the spec's declared requiredness, both in
`process_parameter` (inline mode) and in `process_parameter_for_struct`
(parameter-struct mode). -/
theorem c1_path_parameters_never_optional (c : Casing) (param_name : String)
    (param_schema : ParameterSchemaOrContent) (required : Bool)
    (info_inline info_struct : ParameterInfo)
    (h1 : process_parameter c param_name param_schema
        ParameterLocation.path required = .ok info_inline)
    (h2 : process_parameter_for_struct c param_name param_schema
        ParameterLocation.path required = .ok info_struct) :
    info_inline.param_type.isOpt = false ∧ info_struct.param_type.isOpt = false := by
  constructor
  · unfold process_parameter at h1
    cases param_schema with
    | content =>
      simp only [or_true, if_true] at h1
      cases h1; rfl
    | schema r =>
      dsimp only at h1
      cases hr : reference_or_schema_to_rust_type c r with
      | error e => simp [hr] at h1
      | ok rust_type =>
        rw [hr] at h1
        dsimp only at h1
        by_cases hs : (strTrim rust_type.render == "String") = true
        · simp only [hs, if_true, or_true] at h1
          cases h1; rfl
        · simp only [hs, if_false, or_true, if_true] at h1
          cases h1
          exact reference_or_schema_to_rust_type_ok_not_opt c r rust_type hr
  · unfold process_parameter_for_struct at h2
    cases param_schema with
    | content =>
      simp only [or_true, if_true] at h2
      cases h2; rfl
    | schema r =>
      dsimp only at h2
      cases hr : reference_or_schema_to_rust_type c r with
      | error e => simp [hr] at h2
      | ok rust_type =>
        rw [hr] at h2
        dsimp only at h2
        by_cases hs :
            (strTrim rust_type.render == "String" || strContains rust_type.render "& str") = true
        · simp only [hs, if_true, or_true] at h2
          cases h2; rfl
        · simp only [hs, if_false, or_true, if_true] at h2
          cases h2
          exact reference_or_schema_to_rust_type_ok_not_opt c r rust_type hr

/-- Witness for C1: a path parameter declared with `required: false` and an
`int64` schema still gets the bare `i64` representation in both modes. -/
theorem c1_witness :
    ({ name := "petId", ident := "petId", param_type := RustType.i64,
       location := ParameterLocation.path, is_array := false,
       required := false } : ParameterInfo).param_type.isOpt = false ∧
    ({ name := "petId", ident := "petId", param_type := RustType.i64,
       location := ParameterLocation.path, is_array := false,
       required := false } : ParameterInfo).param_type.isOpt = false :=
  c1_path_parameters_never_optional idCasing "petId"
    (ParameterSchemaOrContent.schema (RefOrSchema.item
      (Schema.mk (SchemaKind.int (VariantOrUnknownOrEmpty.item IntFormat.int64)))))
    false _ _ (by rfl) (by rfl)

/-- Claim C2 counterexample: the sanitizer is not injective — the raw name
`self` and the raw name `self_` both sanitize to `self_`, so a field
literally named `self` and one already named `self_` collide. -/
theorem c2_sanitizer_collision :
    create_rust_safe_ident "self" = create_rust_safe_ident "self_" ∧
      ("self" : String) ≠ "self_" :=
  ⟨rfl, by decide⟩

/-- Claim C2 (amended): the sanitizer is the identity on names that are not
Rust keywords, hence injective on such names; it is not injective in
general, because a keyword's escaped form can equal another raw name
(e.g. both `self` and `self_` sanitize to `self_`). -/
theorem c2_sanitizer_injective_on_non_keywords (a b : String)
    (ha : is_rust_keyword a = false) (hb : is_rust_keyword b = false)
    (hab : a ≠ b) : create_rust_safe_ident a ≠ create_rust_safe_ident b := by
  unfold create_rust_safe_ident
  rw [ha, hb]
  simpa using hab

/-- Witness for the amended C2 at two concrete non-keyword field names. -/
theorem c2_sanitizer_injective_witness :
    is_rust_keyword "status" = false ∧ is_rust_keyword "name" = false ∧
      ("status" : String) ≠ "name" ∧
      create_rust_safe_ident "status" ≠ create_rust_safe_ident "name" :=
  ⟨by decide, by decide, by decide,
   c2_sanitizer_injective_on_non_keywords "status" "name" (by decide) (by decide)
     (by decide)⟩

/-- `openapiv3::ParameterData` restricted to the three fields the generator
reads (`name`, `format`, `required`). -/
structure ParameterData where
  name : String
  format : ParameterSchemaOrContent
  required : Bool

/-- `openapiv3::Parameter`: the four location variants. -/
inductive Parameter where
  | query (parameter_data : ParameterData)
  | header (parameter_data : ParameterData)
  | path (parameter_data : ParameterData)
  | cookie (parameter_data : ParameterData)

/-- `openapiv3::ReferenceOr<Parameter>`. -/
inductive RefOrParam where
  | ref (reference : String)
  | item (p : Parameter)

/-- The declared location of a parameter variant. -/
def Parameter.loc : Parameter → ParameterLocation
  | .query _ => .query
  | .header _ => .header
  | .path _ => .path
  | .cookie _ => .cookie

/-- The declared location of a directly-given (non-`$ref`) parameter. -/
def RefOrParam.locOf : RefOrParam → Option ParameterLocation
  | .ref _ => none
  | .item p => some p.loc

/-- The parameter loop of `generate_struct_for_operation` in
`src/generator/param_structs.rs`: `$ref` parameters are silently skipped by
the `if let ReferenceOr::Item(param)` guard; every directly-given parameter
— whatever its location, including Header and Cookie — is classified with
`process_parameter_for_struct` and pushed onto the field list (Path
parameters are forced `required = true`). -/
def param_struct_fields (c : Casing) : List RefOrParam → Except String (List ParameterInfo)
  | [] => .ok []
  | RefOrParam.ref _ :: rest => param_struct_fields c rest
  | RefOrParam.item p :: rest =>
    let param_info_res :=
      match p with
      | .query d => process_parameter_for_struct c d.name d.format ParameterLocation.query d.required
      | .header d => process_parameter_for_struct c d.name d.format ParameterLocation.header d.required
      | .path d => process_parameter_for_struct c d.name d.format ParameterLocation.path true
      | .cookie d => process_parameter_for_struct c d.name d.format ParameterLocation.cookie d.required
    match param_info_res with
    | .error e => .error e
    | .ok param_info =>
      match param_struct_fields c rest with
      | .error e => .error e
      | .ok rest_infos => .ok (param_info :: rest_infos)

/-- The parameter loop of `generate_client_method_with_mode` in
`src/generator/methods.rs`: a `$ref` parameter aborts generation with a
descriptive error; directly-given parameters of every location are
classified with `process_parameter` (Path parameters keep their declared
requiredness here). -/
def method_all_params (c : Casing) : List RefOrParam → Except String (List ParameterInfo)
  | [] => .ok []
  | RefOrParam.ref reference :: _ =>
    .error ("Parameter references not supported: " ++ reference)
  | RefOrParam.item p :: rest =>
    let param_info_res :=
      match p with
      | .query d => process_parameter c d.name d.format ParameterLocation.query d.required
      | .path d => process_parameter c d.name d.format ParameterLocation.path d.required
      | .header d => process_parameter c d.name d.format ParameterLocation.header d.required
      | .cookie d => process_parameter c d.name d.format ParameterLocation.cookie d.required
    match param_info_res with
    | .error e => .error e
    | .ok param_info =>
      match method_all_params c rest with
      | .error e => .error e
      | .ok rest_infos => .ok (param_info :: rest_infos)

/-- The method-surface filter of `generate_client_method_with_mode`: in both
generation modes only Path- and Query-located parameters enter the method
signature. -/
def method_surface (all_params : List ParameterInfo) : List ParameterInfo :=
  all_params.filter (fun p =>
    decide (p.location = ParameterLocation.path ∨ p.location = ParameterLocation.query))

/-- `generate_operation_id` from `src/generator/param_structs.rs`: fallback
operation-id derivation from HTTP verb and path when `operationId` is
absent.  Path segments that are empty or start with `{` are discarded. -/
def generate_operation_id (c : Casing) (method path : String) : String :=
  let path_parts := (splitChar path '/').filter
    (fun s => !strIsEmpty s && !strStartsChar s '\x7b')
  if path_parts.isEmpty then method
  else method ++ c.pascal (String.intercalate "_" path_parts)

/-- `generate_operation_id_for_struct` from `src/generator/methods.rs`
(textually identical fallback derivation). -/
def generate_operation_id_for_struct (c : Casing) (method path : String) : String :=
  let path_parts := (splitChar path '/').filter
    (fun s => !strIsEmpty s && !strStartsChar s '\x7b')
  if path_parts.isEmpty then method
  else method ++ c.pascal (String.intercalate "_" path_parts)

/-- The parameter-struct name both generators build:
`format_ident!("{}Params", operation_id.to_pascal_case())`. -/
def param_struct_ident (c : Casing) (operation_id : String) : String :=
  c.pascal operation_id ++ "Params"

/-- The constructor emitted by `generate_constructor` in
`src/generator/param_structs.rs`, as data: positional arguments
(name, type) and field initialisers (`true` = from the argument,
`false` = `None`). -/
structure Constructor where
  args : List (String × RustType)
  inits : List (String × Bool)
  deriving DecidableEq, Repr

/-- `generate_constructor` from `src/generator/param_structs.rs`. -/
def generate_constructor (required_params optional_params : List ParameterInfo) :
    Constructor :=
  if required_params.isEmpty then
    { args := [], inits := optional_params.map (fun p => (p.ident, false)) }
  else
    { args := required_params.map (fun p => (p.ident, p.param_type)),
      inits := required_params.map (fun p => (p.ident, true))
        ++ optional_params.map (fun p => (p.ident, false)) }

/-- The inner-type extraction of `generate_builder_methods`: the source
strips a leading `"Option < "` and trailing `" >"` from the rendered token
stream and re-parses; on the `RustType` data this un-wraps a top-level
`Option<_>` and leaves every other type unchanged (the `unwrap_or` branch
re-parses the whole rendered type). -/
def extract_inner_type (param_type : RustType) : RustType :=
  if strContains param_type.render "Option <" then
    match param_type with
    | RustType.optionTy inner => inner
    | t => t
  else param_type

/-- The argument type a generated `with_{field}` setter accepts. -/
inductive SetterInput where
  | intoString
  | exact (t : RustType)
  deriving DecidableEq, Repr

/-- One fluent builder method emitted by `generate_builder_methods`. -/
structure Setter where
  method_name : String
  field : String
  input : SetterInput
  deriving DecidableEq, Repr

/-- `generate_builder_methods` from `src/generator/param_structs.rs`: one
setter per optional parameter, named `with_{ident}`; setters whose inner
type renders as `String` accept `impl Into<String>`. -/
def generate_builder_methods (optional_params : List ParameterInfo) : List Setter :=
  optional_params.map (fun param =>
    let inner_type := extract_inner_type param.param_type
    let input :=
      if inner_type.render == "String" then SetterInput.intoString
      else SetterInput.exact inner_type
    { method_name := "with_" ++ param.ident, field := param.ident, input := input })

/-- The value-level behaviour of an emitted setter: it moves `self`, sets
exactly its own field to `Some(value)` and returns the updated struct. -/
def Setter.apply {V : Type} (s : Setter) (st : String → Option V) (v : V) :
    String → Option V :=
  fun f => if f = s.field then some v else st f

/-- The parameter struct emitted by `generate_param_struct`, as data. -/
structure ParamStruct where
  name : String
  params : List ParameterInfo
  fields : List (String × RustType)
  ctor : Constructor
  setters : List Setter
  has_default : Bool

/-- `generate_param_struct` from `src/generator/param_structs.rs`. -/
def generate_param_struct (struct_name : String) (params : List ParameterInfo) :
    ParamStruct :=
  let required_params := params.filter (fun p => p.required)
  let optional_params := params.filter (fun p => !p.required)
  { name := struct_name,
    params := params,
    fields := params.map (fun p => (p.ident, p.param_type)),
    ctor := generate_constructor required_params optional_params,
    setters := generate_builder_methods optional_params,
    has_default := required_params.isEmpty }

/-- `openapiv3::StatusCode`. -/
inductive StatusCode where
  | code (n : Nat)
  | range (n : Nat)
  deriving DecidableEq, Repr

/-- `openapiv3::MediaType` restricted to the `schema` field the generator
reads. -/
structure MediaType where
  schema : Option RefOrSchema

/-- `openapiv3::Response` restricted to its `content` map (an `IndexMap`
keyed by content-type string). -/
structure Response where
  content : List (String × MediaType)

/-- `openapiv3::ReferenceOr<Response>`. -/
inductive RefOrResponse where
  | ref (reference : String)
  | item (r : Response)

/-- `IndexMap::get` for string-keyed maps. -/
def idxGet {α : Type} (m : List (String × α)) (key : String) : Option α :=
  (m.find? (fun kv => kv.fst == key)).map (fun kv => kv.snd)

/-- `IndexMap::get` for status-keyed response maps. -/
def statusGet (m : List (StatusCode × RefOrResponse)) (key : StatusCode) :
    Option RefOrResponse :=
  (m.find? (fun kv => decide (kv.fst = key))).map (fun kv => kv.snd)

/-- `openapiv3::Operation` restricted to the fields the generator reads. -/
structure Operation where
  operation_id : Option String
  parameters : List RefOrParam
  responses : List (StatusCode × RefOrResponse)

/-- `generate_struct_for_operation` from `src/generator/param_structs.rs`:
derive the operation id (fallback from verb+path), collect the field list,
and synthesize a struct only when the field list is non-empty. -/
def generate_struct_for_operation (c : Casing) (path method : String)
    (operation : Operation) : Except String (Option ParamStruct) :=
  let operation_id := operation.operation_id.getD (generate_operation_id c method path)
  match param_struct_fields c operation.parameters with
  | .error e => .error e
  | .ok params =>
    if params.isEmpty then .ok none
    else .ok (some (generate_param_struct (param_struct_ident c operation_id) params))

/-- `determine_return_type_from_operation` from `src/generator/methods.rs`:
look up only the `200` status; a referenced response yields no typed
response; `application/json` with a resolvable schema wins, else
`text/plain; charset=utf-8`, else `text/plain`, else none. -/
def determine_return_type_from_operation (c : Casing) (operation : Operation) :
    Option (RustType × String) :=
  match statusGet operation.responses (StatusCode.code 200) with
  | none => none
  | some (RefOrResponse.ref _) => none
  | some (RefOrResponse.item response) =>
    let json_result : Option (RustType × String) :=
      match idxGet response.content "application/json" with
      | some content =>
        match content.schema with
        | some schema_ref =>
          match reference_or_schema_to_rust_type c schema_ref with
          | .ok rust_type => some (rust_type, "application/json")
          | .error _ => none
        | none => none
      | none => none
    match json_result with
    | some r => some r
    | none =>
      if (idxGet response.content "text/plain; charset=utf-8").isSome then
        some (RustType.stringTy, "text/plain; charset=utf-8")
      else if (idxGet response.content "text/plain").isSome then
        some (RustType.stringTy, "text/plain")
      else none

/-- The value expression a query-append fragment evaluates: either
`var.to_string()` or the comma-join
`var.iter().map(|n| n.to_string()).collect::<Vec<String>>().join(",")`. -/
inductive ValueExpr where
  | toStringOf (var : String)
  | joinComma (var : String)
  deriving DecidableEq, Repr

/-- One emitted query-building fragment: an unconditional
`query_pairs_mut().append_pair(key, value)` (resp. `url.push_str` in
param-struct mode), possibly wrapped in `if let Some(var) = var`. -/
inductive QueryStep where
  | append (key : String) (value : ValueExpr)
  | ifSome (var : String) (inner : QueryStep)
  deriving DecidableEq, Repr

/-- `generate_array_value_expr` from `src/codegen/params.rs`. -/
def generate_array_value_expr (param_ident : String) : ValueExpr :=
  ValueExpr.joinComma param_ident

/-- `generate_single_value_expr` from `src/codegen/params.rs`. -/
def generate_single_value_expr (param_ident : String) : ValueExpr :=
  ValueExpr.toStringOf param_ident

/-- `generate_param_append_code` from `src/codegen/params.rs`. -/
def generate_param_append_code (param_name : String) (value_expr : ValueExpr) :
    QueryStep :=
  QueryStep.append param_name value_expr

/-- `wrap_optional_code` from `src/codegen/params.rs`. -/
def wrap_optional_code (inner_code : QueryStep) (param_ident : String) : QueryStep :=
  QueryStep.ifSome param_ident inner_code

/-- The query-parameter section of `generate_url_building` from
`src/codegen/params.rs` (inline-parameter mode). -/
def generate_url_building_query (query_params : List ParameterInfo) : List QueryStep :=
  query_params.map (fun param =>
    let value_expr :=
      if param.is_array then generate_array_value_expr param.ident
      else generate_single_value_expr param.ident
    let append_code := generate_param_append_code param.name value_expr
    if param.required then append_code else wrap_optional_code append_code param.ident)

/-- The query-parameter section of `generate_url_building_with_param_structs`
from `src/generator/methods.rs` (parameter-struct mode): the extracted
variables are named `{ident}_value` and the append is a
`url.push_str(format!(...))`, which contributes the same single
`name=value` pair. -/
def generate_url_building_with_param_structs_query (query_params : List ParameterInfo) :
    List QueryStep :=
  query_params.map (fun param =>
    let var_name := param.ident ++ "_value"
    let formatting_expr :=
      if param.is_array then ValueExpr.joinComma var_name
      else ValueExpr.toStringOf var_name
    let append_param := QueryStep.append param.name formatting_expr
    if param.required then append_param
    else QueryStep.ifSome var_name append_param)

/-- A runtime value held by a generated parameter variable: a scalar's
display string, an array's element display strings, or an `Option` of
either. -/
inductive RVal where
  | scalar (s : String)
  | arr (elems : List String)
  | opt (v : Option RVal)

/-- `value.to_string()`.  The generated code only applies it to scalar
variables; the remaining cases do not typecheck in emitted Rust and get a
dummy value. -/
def evalToString : RVal → String
  | .scalar s => s
  | _ => ""

/-- The comma-join of an array value. -/
def evalJoin : RVal → String
  | .arr elems => String.intercalate "," elems
  | _ => ""

/-- Evaluate a value expression in an environment mapping variable names to
runtime values. -/
def evalValueExpr (env : String → RVal) : ValueExpr → String
  | .toStringOf v => evalToString (env v)
  | .joinComma v => evalJoin (env v)

/-- The query pairs one emitted fragment appends.  `if let Some(var) = var`
rebinds `var` to the unwrapped value inside its body (the source shadows
the variable); applying it to a non-`Option` variable does not typecheck in
emitted Rust and contributes nothing. -/
def runQueryStep (env : String → RVal) : QueryStep → List (String × String)
  | .append key value => [(key, evalValueExpr env value)]
  | .ifSome v inner =>
    match env v with
    | RVal.opt (some w) => runQueryStep (fun x => if x = v then w else env x) inner
    | _ => []

/-- The query pairs a whole emitted plan appends, in order. -/
def runQuerySteps (env : String → RVal) : List QueryStep → List (String × String)
  | [] => []
  | s :: rest => runQueryStep env s ++ runQuerySteps env rest

/-- One generated struct field (ident, type, optional serde rename). -/
structure StructField where
  ident : String
  field_type : RustType
  rename : Option String
  deriving DecidableEq, Repr

/-- `generate_struct_fields_from_object` from `src/generator/structs.rs`:
for each property, a `$ref` to `#/components/schemas/{name}` resolves to the
PascalCased ident, `Box`-wrapped exactly when the referenced name equals the
enclosing struct's own name; inline schemas go through the type resolver;
non-required fields are `Option`-wrapped; a field whose raw name differs
from its snake_case gets a serde rename. -/
def generate_struct_fields_from_object (c : Casing) (struct_name : String)
    (required_fields : List String) :
    List (String × RefOrSchema) → Except String (List StructField)
  | [] => .ok []
  | (field_name, field_schema_ref) :: rest =>
    let field_ident := create_rust_safe_ident (c.snake field_name)
    let field_type_res :=
      match field_schema_ref with
      | RefOrSchema.ref reference =>
        match dropPre reference "#/components/schemas/" with
        | some type_name =>
          if type_name == struct_name then
            Except.ok (RustType.boxTy (RustType.ident (c.pascal type_name)))
          else Except.ok (RustType.ident (c.pascal type_name))
        | none => Except.ok RustType.jsonValue
      | RefOrSchema.item schema => schema_to_rust_type c schema
    match field_type_res with
    | .error e => .error e
    | .ok base_type =>
      let field_type :=
        if required_fields.contains field_name then base_type
        else RustType.optionTy base_type
      let serde_attr :=
        if field_name != c.snake field_name then some field_name else none
      match generate_struct_fields_from_object c struct_name required_fields rest with
      | .error e => .error e
      | .ok rest_fields =>
        .ok ({ ident := field_ident, field_type := field_type,
               rename := serde_attr } :: rest_fields)

/-- Claim C10: the fallback operation-id derivation (used for parameter
struct naming when `operationId` is absent) discards every empty or
`{`-starting path segment before joining, so any two paths with the same
kept segments — e.g. paths differing only in placeholder segments — yield
the same derived identifier in both copies of the derivation, and hence the
same synthesized parameter-struct name. -/
theorem c10_operation_id_ignores_placeholder_segments (c : Casing)
    (method p1 p2 : String)
    (h : (splitChar p1 '/').filter (fun s => !strIsEmpty s && !strStartsChar s '\x7b') =
         (splitChar p2 '/').filter (fun s => !strIsEmpty s && !strStartsChar s '\x7b')) :
    generate_operation_id c method p1 = generate_operation_id c method p2 ∧
    generate_operation_id_for_struct c method p1 =
      generate_operation_id_for_struct c method p2 ∧
    param_struct_ident c (generate_operation_id c method p1) =
      param_struct_ident c (generate_operation_id_for_struct c method p2) := by
  unfold generate_operation_id generate_operation_id_for_struct param_struct_ident
  rw [h]
  exact ⟨rfl, rfl, rfl⟩

/-- Witness for C10: `/pets` and `/pets/{petId}` derive the same id and the
same parameter-struct name for `get`. -/
theorem c10_witness :
    generate_operation_id idCasing "get" "/pets" =
      generate_operation_id idCasing "get" "/pets/\x7bpetId\x7d" ∧
    generate_operation_id_for_struct idCasing "get" "/pets" =
      generate_operation_id_for_struct idCasing "get" "/pets/\x7bpetId\x7d" ∧
    param_struct_ident idCasing (generate_operation_id idCasing "get" "/pets") =
      param_struct_ident idCasing
        (generate_operation_id_for_struct idCasing "get" "/pets/\x7bpetId\x7d") :=
  c10_operation_id_ignores_placeholder_segments idCasing "get" "/pets"
    "/pets/\x7bpetId\x7d" (by decide)

/-- Locations (and the other non-type fields) of a classified parameter are
copied through `process_parameter_for_struct` unchanged. -/
theorem process_parameter_for_struct_shape (c : Casing) (pn : String)
    (psch : ParameterSchemaOrContent) (loc : ParameterLocation) (req : Bool)
    (info : ParameterInfo)
    (h : process_parameter_for_struct c pn psch loc req = .ok info) :
    info.name = pn ∧ info.ident = create_rust_safe_ident (c.snake pn) ∧
      info.location = loc ∧ info.required = req ∧
      info.is_array = schema_is_array psch := by
  unfold process_parameter_for_struct at h
  cases psch with
  | content =>
    dsimp only at h
    cases h
    exact ⟨rfl, rfl, rfl, rfl, rfl⟩
  | schema r =>
    dsimp only at h
    cases hr : reference_or_schema_to_rust_type c r with
    | error e => rw [hr] at h; simp at h
    | ok rust_type =>
      rw [hr] at h
      dsimp only at h
      by_cases hs :
          (strTrim rust_type.render == "String" || strContains rust_type.render "& str") = true
      · simp only [hs, if_true] at h
        cases h
        exact ⟨rfl, rfl, rfl, rfl, rfl⟩
      · simp only [hs, if_false] at h
        cases h
        exact ⟨rfl, rfl, rfl, rfl, rfl⟩

/-- Claim C3 counterexample: an operation whose only parameter is a
Header-located one still gets a parameter struct, and that Header parameter
IS a field of the struct (the source's `generate_struct_for_operation`
pushes Header and Cookie parameters onto the field list). -/
theorem c3_counterexample :
    (Except.map (fun o => Option.map (fun ps =>
        ParamStruct.params ps |>.map (fun p => (p.ident, p.location))) o)
      (generate_struct_for_operation idCasing "/x" "get"
        { operation_id := some "getTrace",
          parameters := [RefOrParam.item (Parameter.header
            { name := "trace",
              format := ParameterSchemaOrContent.schema
                (RefOrSchema.item (Schema.mk (SchemaKind.str []))),
              required := true })],
          responses := [] })) =
    Except.ok (some [("trace", ParameterLocation.header)]) := rfl

/-- Claim C3 (amended): the synthesized parameter struct's fields are ALL of
the operation's directly-given (non-`$ref`) parameters in declared order —
Header- and Cookie-located parameters included, with their locations
preserved — while the method surface (both generation modes) admits only
Path and Query parameters. -/
theorem c3_struct_fields_vs_method_surface (c : Casing) (ps : List RefOrParam)
    (infos : List ParameterInfo)
    (h : param_struct_fields c ps = .ok infos) :
    infos.map (fun i => i.location) = ps.filterMap RefOrParam.locOf ∧
    ∀ q ∈ method_surface infos,
      q.location = ParameterLocation.path ∨ q.location = ParameterLocation.query := by
  constructor
  · induction ps generalizing infos with
    | nil =>
      cases h
      rfl
    | cons hd rest ih =>
      cases hd with
      | ref reference =>
        have hrec := ih infos h
        simpa [RefOrParam.locOf] using hrec
      | item p =>
        unfold param_struct_fields at h
        dsimp only at h
        cases p with
        | query d =>
          dsimp only at h
          cases hinfo : process_parameter_for_struct c d.name d.format
              ParameterLocation.query d.required with
          | error e => rw [hinfo] at h; simp at h
          | ok info =>
            rw [hinfo] at h
            dsimp only at h
            cases hrest : param_struct_fields c rest with
            | error e => rw [hrest] at h; simp at h
            | ok rest_infos =>
              rw [hrest] at h
              cases h
              have hloc := (process_parameter_for_struct_shape c d.name d.format
                ParameterLocation.query d.required info hinfo).2.2.1
              simpa [RefOrParam.locOf, Parameter.loc, hloc] using ih rest_infos hrest
        | header d =>
          dsimp only at h
          cases hinfo : process_parameter_for_struct c d.name d.format
              ParameterLocation.header d.required with
          | error e => rw [hinfo] at h; simp at h
          | ok info =>
            rw [hinfo] at h
            dsimp only at h
            cases hrest : param_struct_fields c rest with
            | error e => rw [hrest] at h; simp at h
            | ok rest_infos =>
              rw [hrest] at h
              cases h
              have hloc := (process_parameter_for_struct_shape c d.name d.format
                ParameterLocation.header d.required info hinfo).2.2.1
              simpa [RefOrParam.locOf, Parameter.loc, hloc] using ih rest_infos hrest
        | path d =>
          dsimp only at h
          cases hinfo : process_parameter_for_struct c d.name d.format
              ParameterLocation.path true with
          | error e => rw [hinfo] at h; simp at h
          | ok info =>
            rw [hinfo] at h
            dsimp only at h
            cases hrest : param_struct_fields c rest with
            | error e => rw [hrest] at h; simp at h
            | ok rest_infos =>
              rw [hrest] at h
              cases h
              have hloc := (process_parameter_for_struct_shape c d.name d.format
                ParameterLocation.path true info hinfo).2.2.1
              simpa [RefOrParam.locOf, Parameter.loc, hloc] using ih rest_infos hrest
        | cookie d =>
          dsimp only at h
          cases hinfo : process_parameter_for_struct c d.name d.format
              ParameterLocation.cookie d.required with
          | error e => rw [hinfo] at h; simp at h
          | ok info =>
            rw [hinfo] at h
            dsimp only at h
            cases hrest : param_struct_fields c rest with
            | error e => rw [hrest] at h; simp at h
            | ok rest_infos =>
              rw [hrest] at h
              cases h
              have hloc := (process_parameter_for_struct_shape c d.name d.format
                ParameterLocation.cookie d.required info hinfo).2.2.1
              simpa [RefOrParam.locOf, Parameter.loc, hloc] using ih rest_infos hrest
  · intro q hq
    have := List.of_mem_filter hq
    exact of_decide_eq_true this

/-- Witness for the amended C3 at a mixed Path/Header parameter list. -/
theorem c3_witness :
    ([{ name := "petId", ident := "petId", param_type := RustType.i64,
        location := ParameterLocation.path, is_array := false, required := true },
      { name := "trace", ident := "trace", param_type := RustType.stringTy,
        location := ParameterLocation.header, is_array := false,
        required := true }] : List ParameterInfo).map (fun i => i.location) =
      [RefOrParam.item (Parameter.path
          { name := "petId",
            format := ParameterSchemaOrContent.schema (RefOrSchema.item
              (Schema.mk (SchemaKind.int (VariantOrUnknownOrEmpty.item IntFormat.int64)))),
            required := true }),
        RefOrParam.item (Parameter.header
          { name := "trace",
            format := ParameterSchemaOrContent.schema
              (RefOrSchema.item (Schema.mk (SchemaKind.str []))),
            required := true })].filterMap RefOrParam.locOf ∧
    ∀ q ∈ method_surface
        [{ name := "petId", ident := "petId", param_type := RustType.i64,
           location := ParameterLocation.path, is_array := false, required := true },
         { name := "trace", ident := "trace", param_type := RustType.stringTy,
           location := ParameterLocation.header, is_array := false, required := true }],
      q.location = ParameterLocation.path ∨ q.location = ParameterLocation.query :=
  c3_struct_fields_vs_method_surface idCasing _ _ (by rfl)

/-- The type resolver is total: every schema resolves to some type (the
source's `_ => Ok(serde_json::Value)` arms mean no schema shape fails). -/
theorem schema_to_rust_type_total (c : Casing) :
    ∀ s : Schema, ∃ t, schema_to_rust_type c s = Except.ok t
  | .mk (.str _) => ⟨_, rfl⟩
  | .mk (.int (.item .int32)) => ⟨_, rfl⟩
  | .mk (.int (.item .int64)) => ⟨_, rfl⟩
  | .mk (.int (.unknown _)) => ⟨_, rfl⟩
  | .mk (.int .empty) => ⟨_, rfl⟩
  | .mk (.num (.item .float)) => ⟨_, rfl⟩
  | .mk (.num (.item .double)) => ⟨_, rfl⟩
  | .mk (.num (.unknown _)) => ⟨_, rfl⟩
  | .mk (.num .empty) => ⟨_, rfl⟩
  | .mk .boolean => ⟨_, rfl⟩
  | .mk (.array none) => ⟨_, rfl⟩
  | .mk (.array (some (.ref r))) => by
    unfold schema_to_rust_type
    cases dropPre r "#/components/schemas/" <;> exact ⟨_, rfl⟩
  | .mk (.array (some (.item s))) => by
    obtain ⟨t, ht⟩ := schema_to_rust_type_total c s
    exact ⟨RustType.vec t, by simp [schema_to_rust_type, ht]⟩
  | .mk (.obj _ _) => ⟨_, rfl⟩
  | .mk .other => ⟨_, rfl⟩

/-- Totality of `reference_or_schema_to_rust_type`. -/
theorem reference_or_schema_to_rust_type_total (c : Casing) (r : RefOrSchema) :
    ∃ t, reference_or_schema_to_rust_type c r = Except.ok t := by
  cases r with
  | ref reference =>
    unfold reference_or_schema_to_rust_type
    dsimp only
    cases dropPre reference "#/components/schemas/" <;> exact ⟨_, rfl⟩
  | item s =>
    obtain ⟨t, ht⟩ := schema_to_rust_type_total c s
    exact ⟨t, by simpa [reference_or_schema_to_rust_type] using ht⟩

/-- `process_parameter` never fails. -/
theorem process_parameter_total (c : Casing) (pn : String)
    (psch : ParameterSchemaOrContent) (loc : ParameterLocation) (req : Bool) :
    ∃ info, process_parameter c pn psch loc req = Except.ok info := by
  unfold process_parameter
  cases psch with
  | content => exact ⟨_, rfl⟩
  | schema r =>
    obtain ⟨t, ht⟩ := reference_or_schema_to_rust_type_total c r
    dsimp only
    rw [ht]
    dsimp only
    by_cases hs : (strTrim t.render == "String") = true
    · simp only [hs, if_true]
      exact ⟨_, rfl⟩
    · simp only [hs, if_false]
      exact ⟨_, rfl⟩

/-- `process_parameter_for_struct` never fails. -/
theorem process_parameter_for_struct_total (c : Casing) (pn : String)
    (psch : ParameterSchemaOrContent) (loc : ParameterLocation) (req : Bool) :
    ∃ info, process_parameter_for_struct c pn psch loc req = Except.ok info := by
  unfold process_parameter_for_struct
  cases psch with
  | content => exact ⟨_, rfl⟩
  | schema r =>
    obtain ⟨t, ht⟩ := reference_or_schema_to_rust_type_total c r
    dsimp only
    rw [ht]
    dsimp only
    by_cases hs :
        (strTrim t.render == "String" || strContains t.render "& str") = true
    · simp only [hs, if_true]
      exact ⟨_, rfl⟩
    · simp only [hs, if_false]
      exact ⟨_, rfl⟩

/-- Claim C9 counterexample: an operation parameter given as a `$ref` does
NOT abort parameter-struct synthesis — the reference is silently skipped
and synthesis succeeds (here with an empty field list), so the two pipeline
halves do not both abort. -/
theorem c9_counterexample :
    param_struct_fields idCasing [RefOrParam.ref "#/components/parameters/Limit"] =
      Except.ok [] := rfl

/-- Claim C9 (amended): on a spec with a `$ref` operation parameter, method
generation aborts with a single descriptive error, but parameter-struct
synthesis never aborts — it silently skips `$ref` parameters and always
succeeds. -/
theorem c9_ref_param_abort_vs_skip (c : Casing) (ps : List RefOrParam) :
    ((∃ r, RefOrParam.ref r ∈ ps) → ∃ e, method_all_params c ps = Except.error e) ∧
    (∃ infos, param_struct_fields c ps = Except.ok infos) := by
  constructor
  · intro h
    induction ps with
    | nil =>
      obtain ⟨r, hr⟩ := h
      simp at hr
    | cons hd rest ih =>
      cases hd with
      | ref reference => exact ⟨_, rfl⟩
      | item p =>
        obtain ⟨r, hr⟩ := h
        have hmem : RefOrParam.ref r ∈ rest := by
          rcases List.mem_cons.mp hr with h1 | h2
          · cases h1
          · exact h2
        obtain ⟨e, he⟩ := ih ⟨r, hmem⟩
        unfold method_all_params
        dsimp only
        cases p with
        | query d =>
          obtain ⟨info, hinfo⟩ := process_parameter_total c d.name d.format
            ParameterLocation.query d.required
          dsimp only
          rw [hinfo]
          dsimp only
          rw [he]
          exact ⟨e, rfl⟩
        | path d =>
          obtain ⟨info, hinfo⟩ := process_parameter_total c d.name d.format
            ParameterLocation.path d.required
          dsimp only
          rw [hinfo]
          dsimp only
          rw [he]
          exact ⟨e, rfl⟩
        | header d =>
          obtain ⟨info, hinfo⟩ := process_parameter_total c d.name d.format
            ParameterLocation.header d.required
          dsimp only
          rw [hinfo]
          dsimp only
          rw [he]
          exact ⟨e, rfl⟩
        | cookie d =>
          obtain ⟨info, hinfo⟩ := process_parameter_total c d.name d.format
            ParameterLocation.cookie d.required
          dsimp only
          rw [hinfo]
          dsimp only
          rw [he]
          exact ⟨e, rfl⟩
  · induction ps with
    | nil => exact ⟨[], rfl⟩
    | cons hd rest ih =>
      obtain ⟨infos, hrest⟩ := ih
      cases hd with
      | ref reference => exact ⟨infos, hrest⟩
      | item p =>
        unfold param_struct_fields
        dsimp only
        cases p with
        | query d =>
          obtain ⟨info, hinfo⟩ := process_parameter_for_struct_total c d.name d.format
            ParameterLocation.query d.required
          dsimp only
          rw [hinfo]
          dsimp only
          rw [hrest]
          exact ⟨info :: infos, rfl⟩
        | header d =>
          obtain ⟨info, hinfo⟩ := process_parameter_for_struct_total c d.name d.format
            ParameterLocation.header d.required
          dsimp only
          rw [hinfo]
          dsimp only
          rw [hrest]
          exact ⟨info :: infos, rfl⟩
        | path d =>
          obtain ⟨info, hinfo⟩ := process_parameter_for_struct_total c d.name d.format
            ParameterLocation.path true
          dsimp only
          rw [hinfo]
          dsimp only
          rw [hrest]
          exact ⟨info :: infos, rfl⟩
        | cookie d =>
          obtain ⟨info, hinfo⟩ := process_parameter_for_struct_total c d.name d.format
            ParameterLocation.cookie d.required
          dsimp only
          rw [hinfo]
          dsimp only
          rw [hrest]
          exact ⟨info :: infos, rfl⟩

/-- Witness for the amended C9 at a one-element `$ref` parameter list. -/
theorem c9_witness :
    (∃ e, method_all_params idCasing [RefOrParam.ref "#/components/parameters/Limit"] =
      Except.error e) ∧
    (∃ infos, param_struct_fields idCasing
      [RefOrParam.ref "#/components/parameters/Limit"] = Except.ok infos) :=
  ⟨(c9_ref_param_abort_vs_skip idCasing
      [RefOrParam.ref "#/components/parameters/Limit"]).1
    ⟨"#/components/parameters/Limit", List.mem_singleton.mpr rfl⟩,
   (c9_ref_param_abort_vs_skip idCasing
      [RefOrParam.ref "#/components/parameters/Limit"]).2⟩

/-- The emitted query plan is per-parameter: the pairs of a concatenation
are the concatenation of the pairs. -/
theorem runQuerySteps_append (env : String → RVal) (a b : List QueryStep) :
    runQuerySteps env (a ++ b) = runQuerySteps env a ++ runQuerySteps env b := by
  induction a with
  | nil => rfl
  | cons s rest ih => simp [runQuerySteps, ih]

/-- Claim C5: an array-typed query parameter with a non-empty value list
contributes exactly one query pair, keyed by the parameter's source name,
whose value is the comma-join of the elements' string forms — never one
pair per element — in both URL-building modes, whether the parameter is
required or optional-and-present; and the plan treats parameters
independently (append steps distribute over list concatenation). -/
theorem c5_array_query_param_single_comma_joined_pair (p : ParameterInfo)
    (env : String → RVal) (elems : List String)
    (harr : p.is_array = true) (hne : elems ≠ []) :
    (p.required = true → env p.ident = RVal.arr elems →
      runQuerySteps env (generate_url_building_query [p]) =
        [(p.name, String.intercalate "," elems)]) ∧
    (p.required = false → env p.ident = RVal.opt (some (RVal.arr elems)) →
      runQuerySteps env (generate_url_building_query [p]) =
        [(p.name, String.intercalate "," elems)]) ∧
    (p.required = true → env (p.ident ++ "_value") = RVal.arr elems →
      runQuerySteps env (generate_url_building_with_param_structs_query [p]) =
        [(p.name, String.intercalate "," elems)]) ∧
    (p.required = false → env (p.ident ++ "_value") = RVal.opt (some (RVal.arr elems)) →
      runQuerySteps env (generate_url_building_with_param_structs_query [p]) =
        [(p.name, String.intercalate "," elems)]) ∧
    (∀ qs1 qs2 : List ParameterInfo,
      runQuerySteps env (generate_url_building_query (qs1 ++ qs2)) =
        runQuerySteps env (generate_url_building_query qs1) ++
          runQuerySteps env (generate_url_building_query qs2)) := by
  refine ⟨?_, ?_, ?_, ?_, ?_⟩
  · intro hreq henv
    simp [generate_url_building_query, harr, hreq, generate_array_value_expr,
      generate_param_append_code, runQuerySteps, runQueryStep, evalValueExpr,
      evalJoin, henv]
  · intro hreq henv
    simp [generate_url_building_query, harr, hreq, generate_array_value_expr,
      generate_param_append_code, wrap_optional_code, runQuerySteps, runQueryStep,
      evalValueExpr, evalJoin, henv]
  · intro hreq henv
    simp [generate_url_building_with_param_structs_query, harr, hreq,
      runQuerySteps, runQueryStep, evalValueExpr, evalJoin, henv]
  · intro hreq henv
    simp [generate_url_building_with_param_structs_query, harr, hreq,
      runQuerySteps, runQueryStep, evalValueExpr, evalJoin, henv]
  · intro qs1 qs2
    unfold generate_url_building_query
    rw [List.map_append]
    exact runQuerySteps_append env _ _

/-- Environment for the C5 witness: `tag` holds the array
`["a", "b", "c"]`. -/
def c5Env : String → RVal :=
  fun x => if x = "tag" then RVal.arr ["a", "b", "c"] else RVal.scalar ""

/-- The C5 witness parameter: a required array-typed query parameter named
`tag`. -/
def c5Param : ParameterInfo :=
  { name := "tag", ident := "tag", param_type := RustType.vec RustType.stringTy,
    location := ParameterLocation.query, is_array := true, required := true }

/-- Witness for C5: values `["a","b","c"]` under key `tag` yield the single
pair `tag=a,b,c`. -/
theorem c5_witness :
    runQuerySteps c5Env (generate_url_building_query [c5Param]) = [("tag", "a,b,c")] :=
  ((c5_array_query_param_single_comma_joined_pair c5Param c5Env ["a", "b", "c"]
      rfl (by decide)).1 rfl rfl).trans (by decide)

/-- Claim C6: an optional query parameter whose runtime value is `None`
contributes zero query pairs (not an empty-valued pair), and a required
query parameter always contributes exactly one pair — in both URL-building
modes. -/
theorem c6_absent_optional_zero_pairs_required_one_pair (p : ParameterInfo)
    (env : String → RVal) :
    (p.required = false → env p.ident = RVal.opt none →
      runQuerySteps env (generate_url_building_query [p]) = []) ∧
    (p.required = false → env (p.ident ++ "_value") = RVal.opt none →
      runQuerySteps env (generate_url_building_with_param_structs_query [p]) = []) ∧
    (p.required = true →
      (runQuerySteps env (generate_url_building_query [p])).length = 1 ∧
      (runQuerySteps env
        (generate_url_building_with_param_structs_query [p])).length = 1) := by
  refine ⟨?_, ?_, ?_⟩
  · intro hreq henv
    cases hia : p.is_array <;>
      simp [generate_url_building_query, hia, hreq, generate_array_value_expr,
        generate_single_value_expr, generate_param_append_code, wrap_optional_code,
        runQuerySteps, runQueryStep, henv]
  · intro hreq henv
    cases hia : p.is_array <;>
      simp [generate_url_building_with_param_structs_query, hia, hreq,
        runQuerySteps, runQueryStep, henv]
  · intro hreq
    constructor
    · cases hia : p.is_array <;>
        simp [generate_url_building_query, hia, hreq, generate_array_value_expr,
          generate_single_value_expr, generate_param_append_code, runQuerySteps,
          runQueryStep]
    · cases hia : p.is_array <;>
        simp [generate_url_building_with_param_structs_query, hia, hreq,
          runQuerySteps, runQueryStep]

/-- The C6 witness parameter: an optional scalar query parameter named
`status`. -/
def c6Param : ParameterInfo :=
  { name := "status", ident := "status",
    param_type := RustType.optionTy RustType.strRef,
    location := ParameterLocation.query, is_array := false, required := false }

/-- Environment for the C6 witness: every variable holds `None`. -/
def c6Env : String → RVal := fun _ => RVal.opt none

/-- Witness for C6: the absent optional `status` contributes no pair, and the
same parameter marked required contributes exactly one pair. -/
theorem c6_witness :
    runQuerySteps c6Env (generate_url_building_query [c6Param]) = [] ∧
    (runQuerySteps c6Env
      (generate_url_building_query [{ c6Param with required := true }])).length = 1 :=
  ⟨(c6_absent_optional_zero_pairs_required_one_pair c6Param c6Env).1 rfl rfl,
   ((c6_absent_optional_zero_pairs_required_one_pair
      { c6Param with required := true } c6Env).2.2 rfl).1⟩

/-- Claim C8: for the struct synthesized from an operation's parameters, the
constructor takes exactly the required parameters (in declared order) as
arguments and initializes every optional field to `None` (so the result is
fully constructed with no setter called); exactly one `with_{field}` setter
exists per optional field; a string-typed optional setter accepts any value
convertible into `String`; and applying a setter returns the struct by
value with exactly that one field set. -/
theorem c8_param_struct_builder_contract (struct_name : String)
    (params : List ParameterInfo) :
    (generate_param_struct struct_name params).ctor.args =
      (params.filter (fun p => p.required)).map (fun p => (p.ident, p.param_type)) ∧
    (generate_param_struct struct_name params).ctor.inits =
      (params.filter (fun p => p.required)).map (fun p => (p.ident, true)) ++
        (params.filter (fun p => !p.required)).map (fun p => (p.ident, false)) ∧
    (generate_param_struct struct_name params).setters.map (fun s => s.method_name) =
      (params.filter (fun p => !p.required)).map (fun p => "with_" ++ p.ident) ∧
    (∀ p ∈ params, p.required = false →
      (extract_inner_type p.param_type).render = "String" →
      ({ method_name := "with_" ++ p.ident, field := p.ident,
         input := SetterInput.intoString } : Setter) ∈
        (generate_param_struct struct_name params).setters) ∧
    (∀ (V : Type) (s : Setter) (st : String → Option V) (v : V),
      s ∈ (generate_param_struct struct_name params).setters →
      Setter.apply s st v s.field = some v ∧
        ∀ f, f ≠ s.field → Setter.apply s st v f = st f) := by
  refine ⟨?_, ?_, ?_, ?_, ?_⟩
  · unfold generate_param_struct generate_constructor
    dsimp only
    by_cases he : (params.filter (fun p => p.required)).isEmpty = true
    · simp only [he, if_true]
      rw [List.isEmpty_iff.mp he]
      rfl
    · simp only [he, if_false]
      rfl
  · unfold generate_param_struct generate_constructor
    dsimp only
    by_cases he : (params.filter (fun p => p.required)).isEmpty = true
    · simp only [he, if_true]
      rw [List.isEmpty_iff.mp he]
      rfl
    · simp only [he, if_false]
      rfl
  · unfold generate_param_struct generate_builder_methods
    dsimp only
    rw [List.map_map]
    rfl
  · intro p hp hreq hrender
    unfold generate_param_struct generate_builder_methods
    dsimp only
    have hmem : p ∈ params.filter (fun q => !q.required) := by
      rw [List.mem_filter]
      exact ⟨hp, by rw [hreq]; rfl⟩
    have hbeq : ((extract_inner_type p.param_type).render == "String") = true :=
      beq_iff_eq.mpr hrender
    have := List.mem_map_of_mem (fun param =>
      let inner_type := extract_inner_type param.param_type
      let input :=
        if inner_type.render == "String" then SetterInput.intoString
        else SetterInput.exact inner_type
      ({ method_name := "with_" ++ param.ident, field := param.ident,
         input := input } : Setter)) hmem
    simpa [hbeq] using this
  · intro V s st v _hs
    refine ⟨?_, ?_⟩
    · unfold Setter.apply
      rw [if_pos rfl]
    · intro f hf
      unfold Setter.apply
      rw [if_neg hf]

/-- The C8 witness parameters: required path parameter `petId` (`i64`) and
optional string query parameters `name` and `status`, exactly as
`process_parameter_for_struct` classifies them. -/
def c8Params : List ParameterInfo :=
  [{ name := "petId", ident := "petId", param_type := RustType.i64,
     location := ParameterLocation.path, is_array := false, required := true },
   { name := "name", ident := "name",
     param_type := RustType.optionTy RustType.stringTy,
     location := ParameterLocation.query, is_array := false, required := false },
   { name := "status", ident := "status",
     param_type := RustType.optionTy RustType.stringTy,
     location := ParameterLocation.query, is_array := false, required := false }]

/-- Witness for C8 at the spec's example: the classifier produces exactly
`c8Params`, the constructor takes exactly one argument (`petId`), exactly
the setters `with_name` and `with_status` exist, `with_name` accepts
`impl Into<String>`, and the constructor initializes both optional fields
to `None`. -/
theorem c8_witness :
    process_parameter_for_struct idCasing "petId"
      (ParameterSchemaOrContent.schema (RefOrSchema.item
        (Schema.mk (SchemaKind.int (VariantOrUnknownOrEmpty.item IntFormat.int64)))))
      ParameterLocation.path true = Except.ok (c8Params.get ⟨0, by decide⟩) ∧
    process_parameter_for_struct idCasing "name"
      (ParameterSchemaOrContent.schema (RefOrSchema.item (Schema.mk (SchemaKind.str []))))
      ParameterLocation.query false = Except.ok (c8Params.get ⟨1, by decide⟩) ∧
    process_parameter_for_struct idCasing "status"
      (ParameterSchemaOrContent.schema (RefOrSchema.item (Schema.mk (SchemaKind.str []))))
      ParameterLocation.query false = Except.ok (c8Params.get ⟨2, by decide⟩) ∧
    (generate_param_struct "FindPetParams" c8Params).ctor.args =
      [("petId", RustType.i64)] ∧
    (generate_param_struct "FindPetParams" c8Params).ctor.inits =
      [("petId", true), ("name", false), ("status", false)] ∧
    (generate_param_struct "FindPetParams" c8Params).setters.map
      (fun s => s.method_name) = ["with_name", "with_status"] ∧
    ({ method_name := "with_name", field := "name",
       input := SetterInput.intoString } : Setter) ∈
      (generate_param_struct "FindPetParams" c8Params).setters :=
  ⟨rfl, rfl, rfl,
   ((c8_param_struct_builder_contract "FindPetParams" c8Params).1).trans (by decide),
   ((c8_param_struct_builder_contract "FindPetParams" c8Params).2.1).trans (by decide),
   ((c8_param_struct_builder_contract "FindPetParams" c8Params).2.2.1).trans (by decide),
   (c8_param_struct_builder_contract "FindPetParams" c8Params).2.2.2.1
     (c8Params.get ⟨1, by decide⟩) (by decide) rfl (by decide)⟩

/-- The C7 field specification: if the property is a `$ref` into
`#/components/schemas/`, the generated field type is the referenced ident,
`Box`-wrapped exactly when the referenced name equals the enclosing struct's
own name, and `Option`-wrapped exactly when the property is not required. -/
def boxedFieldSpec (c : Casing) (struct_name : String) (required_fields : List String)
    (pr : String × RefOrSchema) (f : StructField) : Prop :=
  ∀ reference type_name, pr.2 = RefOrSchema.ref reference →
    dropPre reference "#/components/schemas/" = some type_name →
    f.field_type =
      (if required_fields.contains pr.1 then
        (if type_name == struct_name then
          RustType.boxTy (RustType.ident (c.pascal type_name))
         else RustType.ident (c.pascal type_name))
       else RustType.optionTy
        (if type_name == struct_name then
          RustType.boxTy (RustType.ident (c.pascal type_name))
         else RustType.ident (c.pascal type_name)))

/-- Claim C7: for every named object schema, a property given as a reference
whose resolved name equals the enclosing schema's own name is generated with
a `Box`-indirected field type, while references to other named schemas are
not boxed; generation is a total structurally-recursive function, so it
terminates on self-referencing schemas. -/
theorem c7_self_reference_boxed (c : Casing) (struct_name : String)
    (required_fields : List String) (props : List (String × RefOrSchema))
    (fields : List StructField)
    (h : generate_struct_fields_from_object c struct_name required_fields props =
      .ok fields) :
    List.Forall₂ (boxedFieldSpec c struct_name required_fields) props fields := by
  induction props generalizing fields with
  | nil =>
    cases h
    exact List.Forall₂.nil
  | cons pr rest ih =>
    obtain ⟨field_name, fref⟩ := pr
    unfold generate_struct_fields_from_object at h
    dsimp only at h
    cases fref with
    | ref reference =>
      dsimp only at h
      cases hd : dropPre reference "#/components/schemas/" with
      | none =>
        rw [hd] at h
        dsimp only at h
        cases hrest : generate_struct_fields_from_object c struct_name
            required_fields rest with
        | error e => rw [hrest] at h; simp at h
        | ok rest_fields =>
          rw [hrest] at h
          dsimp only at h
          cases h
          refine List.Forall₂.cons ?_ (ih rest_fields hrest)
          intro r tn h1 h2
          cases h1
          rw [hd] at h2
          cases h2
      | some type_name =>
        rw [hd] at h
        dsimp only at h
        rw [← apply_ite Except.ok] at h
        dsimp only at h
        cases hrest : generate_struct_fields_from_object c struct_name
            required_fields rest with
        | error e => rw [hrest] at h; simp at h
        | ok rest_fields =>
          rw [hrest] at h
          dsimp only at h
          cases h
          refine List.Forall₂.cons ?_ (ih rest_fields hrest)
          intro r tn h1 h2
          cases h1
          rw [hd] at h2
          cases h2
          rfl
    | item schema =>
      dsimp only at h
      cases hres : schema_to_rust_type c schema with
      | error e => rw [hres] at h; simp at h
      | ok base =>
        rw [hres] at h
        dsimp only at h
        cases hrest : generate_struct_fields_from_object c struct_name
            required_fields rest with
        | error e => rw [hrest] at h; simp at h
        | ok rest_fields =>
          rw [hrest] at h
          dsimp only at h
          cases h
          refine List.Forall₂.cons ?_ (ih rest_fields hrest)
          intro r tn h1 h2
          exact RefOrSchema.noConfusion h1

/-- The C7 witness schema: `Category` with an `int64` `id` (required) and a
self-referencing optional `parent` property. -/
def categoryProps : List (String × RefOrSchema) :=
  [("id", RefOrSchema.item (Schema.mk (SchemaKind.int
      (VariantOrUnknownOrEmpty.item IntFormat.int64)))),
   ("parent", RefOrSchema.ref "#/components/schemas/Category")]

/-- The fields the generator produces for `categoryProps`: the
self-referencing `parent` is `Box`-indirected (inside the `Option` of a
non-required field). -/
def categoryFields : List StructField :=
  [{ ident := "id", field_type := RustType.i64, rename := none },
   { ident := "parent",
     field_type := RustType.optionTy (RustType.boxTy (RustType.ident "Category")),
     rename := none }]

/-- Witness for C7: the `Category` schema with `parent: Category` evaluates
(terminates) to a field list whose `parent` field is boxed, and the general
theorem applies to it. -/
theorem c7_witness :
    generate_struct_fields_from_object idCasing "Category" ["id"] categoryProps =
      Except.ok categoryFields ∧
    List.Forall₂ (boxedFieldSpec idCasing "Category" ["id"])
      categoryProps categoryFields :=
  ⟨rfl, c7_self_reference_boxed idCasing "Category" ["id"] categoryProps
    categoryFields rfl⟩

/-- The content map of the C4 counterexample: both `application/json` and
`text/plain` are present on the 200 response, but the JSON entry carries no
schema. -/
def c4Content : List (String × MediaType) :=
  [("application/json", { schema := none }),
   ("text/plain", { schema := none })]

/-- The C4 counterexample operation. -/
def c4Op : Operation :=
  { operation_id := none, parameters := [],
    responses := [(StatusCode.code 200, RefOrResponse.item { content := c4Content })] }

/-- Claim C4 counterexample: with both `application/json` and `text/plain`
present on the 200 response, the resolved type and content kind are NOT the
JSON ones — a schema-less `application/json` entry falls through to
`text/plain`. -/
theorem c4_counterexample :
    idxGet c4Content "application/json" = some { schema := none } ∧
    idxGet c4Content "text/plain" = some { schema := none } ∧
    determine_return_type_from_operation idCasing c4Op =
      some (RustType.stringTy, "text/plain") :=
  ⟨rfl, rfl, rfl⟩

/-- Claim C4 (amended): response resolution consults only the 200 response
(operations with the same 200 entry resolve identically; a missing or
referenced 200 yields no typed response); an `application/json` entry that
carries a schema wins with the resolved type and the JSON content kind;
when no JSON schema is available (key absent or schema-less), the
`text/plain; charset=utf-8` entry wins with `String`, then `text/plain`
with `String`, else there is no typed response. -/
theorem c4_response_resolution (c : Casing) (op : Operation) :
    (∀ op2 : Operation,
      statusGet op.responses (StatusCode.code 200) =
        statusGet op2.responses (StatusCode.code 200) →
      determine_return_type_from_operation c op =
        determine_return_type_from_operation c op2) ∧
    (statusGet op.responses (StatusCode.code 200) = none →
      determine_return_type_from_operation c op = none) ∧
    (∀ r, statusGet op.responses (StatusCode.code 200) =
        some (RefOrResponse.ref r) →
      determine_return_type_from_operation c op = none) ∧
    (∀ resp mt sr t,
      statusGet op.responses (StatusCode.code 200) = some (RefOrResponse.item resp) →
      idxGet resp.content "application/json" = some mt → mt.schema = some sr →
      reference_or_schema_to_rust_type c sr = .ok t →
      determine_return_type_from_operation c op = some (t, "application/json")) ∧
    (∀ resp,
      statusGet op.responses (StatusCode.code 200) = some (RefOrResponse.item resp) →
      (idxGet resp.content "application/json").bind (fun mt => mt.schema) = none →
      ((idxGet resp.content "text/plain; charset=utf-8").isSome = true →
        determine_return_type_from_operation c op =
          some (RustType.stringTy, "text/plain; charset=utf-8")) ∧
      ((idxGet resp.content "text/plain; charset=utf-8").isSome = false →
        (idxGet resp.content "text/plain").isSome = true →
        determine_return_type_from_operation c op =
          some (RustType.stringTy, "text/plain")) ∧
      ((idxGet resp.content "text/plain; charset=utf-8").isSome = false →
        (idxGet resp.content "text/plain").isSome = false →
        determine_return_type_from_operation c op = none)) := by
  refine ⟨?_, ?_, ?_, ?_, ?_⟩
  · intro op2 h
    unfold determine_return_type_from_operation
    rw [h]
  · intro h
    unfold determine_return_type_from_operation
    rw [h]
  · intro r h
    unfold determine_return_type_from_operation
    rw [h]
  · intro resp mt sr t h200 hmt hsr ht
    unfold determine_return_type_from_operation
    rw [h200]
    dsimp only
    rw [hmt]
    dsimp only
    rw [hsr]
    dsimp only
    rw [ht]
  · intro resp h200 hnoj
    have hjson :
        (match idxGet resp.content "application/json" with
          | some content =>
            match content.schema with
            | some schema_ref =>
              match reference_or_schema_to_rust_type c schema_ref with
              | .ok rust_type => some (rust_type, "application/json")
              | .error _ => none
            | none => (none : Option (RustType × String))
          | none => none) = none := by
      cases hj : idxGet resp.content "application/json" with
      | none => rfl
      | some mt =>
        rw [hj] at hnoj
        dsimp only [Option.bind] at hnoj
        dsimp only
        rw [hnoj]
    refine ⟨?_, ?_, ?_⟩
    · intro hcs
      unfold determine_return_type_from_operation
      rw [h200]
      dsimp only
      rw [hjson]
      dsimp only
      rw [hcs, if_pos rfl]
    · intro hcs hpl
      unfold determine_return_type_from_operation
      rw [h200]
      dsimp only
      rw [hjson]
      dsimp only
      rw [hcs, hpl, if_neg Bool.false_ne_true, if_pos rfl]
    · intro hcs hpl
      unfold determine_return_type_from_operation
      rw [h200]
      dsimp only
      rw [hjson]
      dsimp only
      rw [hcs, hpl, if_neg Bool.false_ne_true, if_neg Bool.false_ne_true]

/-- The 200 response of the C4 witness: `application/json` with a `$ref`
schema to `Pet`, alongside a `text/plain` entry. -/
def c4wResp : Response :=
  { content := [("application/json",
      { schema := some (RefOrSchema.ref "#/components/schemas/Pet") }),
     ("text/plain", { schema := none })] }

/-- The C4 witness operation. -/
def c4wOp : Operation :=
  { operation_id := none, parameters := [],
    responses := [(StatusCode.code 200, RefOrResponse.item c4wResp)] }

/-- Witness for the amended C4: a schema-carrying `application/json` entry
wins over a simultaneously-present `text/plain`, resolving to the `Pet`
reference with the JSON content kind. -/
theorem c4_witness :
    determine_return_type_from_operation idCasing c4wOp =
      some (RustType.ident "Pet", "application/json") :=
  (c4_response_resolution idCasing c4wOp).2.2.2.1 c4wResp
    { schema := some (RefOrSchema.ref "#/components/schemas/Pet") }
    (RefOrSchema.ref "#/components/schemas/Pet") (RustType.ident "Pet")
    rfl rfl rfl (by rfl)

end OpenapiGen
